import Mathlib

/-
Verification of the pcast crate: same-size tagged data structure conversions.

The embedding models the 8-byte `Packet` record (one discriminant byte plus a
7-byte payload), the conversions generated by the `subtype_of!` macro in
src/lib.rs (a validity check followed by a byte-preserving `transmute`, for
owned values, shared references and exclusive references), and the hand-written
conversion and view code in src/casttest.rs and src/viewtest.rs.

Machine bytes are `Fin 256`.  A `&self` method cannot write through its
reference, and a `&mut self` method may; reference-taking operations are
embedded in state-passing style, returning the value of the referent after the
call, so that frame properties ("the bytes are unchanged") are real theorems.
A `panic!`/`assert!` abort is modelled as `Option.none`.
-/

namespace Pcast

/-- A machine byte (`u8`). -/
abbrev Byte := Fin 256

/-- The base record, declared identically in src/lib.rs (test module),
src/casttest.rs and src/viewtest.rs:
`packet_type: u8` (the discriminant; 0x02 is "status") followed by
`data: [u8; 7]` (the payload). -/
structure Packet where
  packet_type : Byte
  data : List Byte
deriving DecidableEq

/-- Well-formedness from the Rust type `[u8; 7]`: the payload has exactly
seven bytes. -/
def Packet.wf (p : Packet) : Prop := p.data.length = 7

instance (p : Packet) : Decidable p.wf := by
  unfold Packet.wf
  infer_instance

/-- The bytes of the 8-byte record: discriminant byte then the payload. -/
def Packet.bytes (p : Packet) : List Byte := p.packet_type :: p.data

/-- `Packet::new` (same body in all three files). -/
def Packet.new (packet_type : Byte) (data : List Byte) : Packet :=
  ⟨packet_type, data⟩

/-- `Packet::get_raw_payload`: returns `&self.data`. -/
def Packet.get_raw_payload (p : Packet) : List Byte := p.data

/-- `Packet::set_raw_payload`: `self.data = data`. -/
def Packet.set_raw_payload (p : Packet) (data : List Byte) : Packet :=
  { p with data := data }

/-- Body of the `TryFrom<$base> for $sub` impl generated by `subtype_of!`:
run `check_is_valid_subtype` on the owned base; on error propagate the error
(the base is consumed and dropped), on success `transmute` the owned storage
to the subtype. -/
def subtypeTryFromOwned {ε σ : Type} (check : Packet → Except ε Unit)
    (transmute : Packet → σ) (base : Packet) : Except ε σ :=
  match check base with
  | .error e => .error e
  | .ok () => .ok (transmute base)

/-- Body of the `TryFrom<&'a $base> for &'a $sub` impl generated by
`subtype_of!`: run the check against the referent, and on success retype the
reference.  The second component is the referent after the call; the body
performs no write, so it is the input record. -/
def subtypeTryFromRef {ε σ : Type} (check : Packet → Except ε Unit)
    (transmute : Packet → σ) (base : Packet) : Except ε σ × Packet :=
  (match check base with
   | .error e => .error e
   | .ok () => .ok (transmute base), base)

/-- Body of the `TryFrom<&'a mut $base> for &'a mut $sub` impl generated by
`subtype_of!`: identical validation, producing an exclusive subtype view.
The second component is the referent after the call (no write occurs). -/
def subtypeTryFromMutRef {ε σ : Type} (check : Packet → Except ε Unit)
    (transmute : Packet → σ) (base : Packet) : Except ε σ × Packet :=
  (match check base with
   | .error e => .error e
   | .ok () => .ok (transmute base), base)

namespace lib

/-- src/lib.rs (test module) `pub enum ConversionError {}`: an empty enum,
uninhabited. -/
inductive ConversionError : Type

instance : IsEmpty ConversionError := ⟨fun e => nomatch e⟩

/-- src/lib.rs (test module) `pub struct PongConvError {}`: an empty struct
with exactly one value. -/
structure PongConvError where
deriving DecidableEq

/-- src/lib.rs (test) `PingPacket` (`repr(C, packed)`: `packet_type: u8`,
`dummy: u32`, `unused: [u8; 3]`), layout-compatible with `Packet`; a value is
the same 8 bytes reinterpreted, so the model carries the underlying record. -/
structure PingPacket where
  raw : Packet
deriving DecidableEq

/-- src/lib.rs (test) `PongPacket`, same layout as `PingPacket`. -/
structure PongPacket where
  raw : Packet
deriving DecidableEq

/-- src/lib.rs (test) `StatusPacket` (`repr(C)`): `packet_type: u8`,
`ts: [u8; 4]`, `status_0`, `status_1`, `status_2: u8` — same 8-byte layout as
`Packet`, with the payload split into named fields. -/
structure StatusPacket where
  packet_type : Byte
  ts : List Byte
  status_0 : Byte
  status_1 : Byte
  status_2 : Byte
deriving DecidableEq

/-- Check body of `subtype_of!(Packet => PingPacket | ConversionError { Ok(()) })`. -/
def check_is_valid_subtype_ping (_p : Packet) : Except ConversionError Unit :=
  .ok ()

/-- Check body of
`subtype_of!(Packet => PongPacket | PongConvError { Err(PongConvError {}) })`. -/
def check_is_valid_subtype_pong (_p : Packet) : Except PongConvError Unit :=
  .error ⟨⟩

/-- Check body of `subtype_of!(Packet => StatusPacket | () { Ok(()) })`. -/
def check_is_valid_subtype_status (_p : Packet) : Except Unit Unit :=
  .ok ()

/-- `transmute::<Packet, StatusPacket>`: the 8 bytes reinterpreted under the
`StatusPacket` layout: `ts` covers payload bytes 0..3, `status_0/1/2` are
payload bytes 4, 5, 6. -/
def transmuteToStatus (p : Packet) : StatusPacket :=
  ⟨p.packet_type, p.data.take 4, p.data.getD 4 0, p.data.getD 5 0,
   p.data.getD 6 0⟩

/-- `transmute::<&StatusPacket, &Packet>`, the body of the generated `Deref`:
the same 8 bytes viewed as the base record. -/
def StatusPacket.deref (s : StatusPacket) : Packet :=
  ⟨s.packet_type, s.ts ++ [s.status_0, s.status_1, s.status_2]⟩

/-- Generated `Deref` for `PingPacket`: the same bytes as the base record. -/
def PingPacket.deref (s : PingPacket) : Packet := s.raw

/-- Generated `Deref` for `PongPacket`: the same bytes as the base record. -/
def PongPacket.deref (s : PongPacket) : Packet := s.raw

/-- Generated `TryFrom<Packet> for PingPacket`. -/
def PingPacket.try_from (base : Packet) : Except ConversionError PingPacket :=
  subtypeTryFromOwned check_is_valid_subtype_ping PingPacket.mk base

/-- Generated `TryFrom<&'a Packet> for &'a PingPacket`. -/
def PingPacket.try_from_ref (base : Packet) :
    Except ConversionError PingPacket × Packet :=
  subtypeTryFromRef check_is_valid_subtype_ping PingPacket.mk base

/-- Generated `TryFrom<&'a mut Packet> for &'a mut PingPacket`. -/
def PingPacket.try_from_mut (base : Packet) :
    Except ConversionError PingPacket × Packet :=
  subtypeTryFromMutRef check_is_valid_subtype_ping PingPacket.mk base

/-- Generated `TryFrom<Packet> for PongPacket`. -/
def PongPacket.try_from (base : Packet) : Except PongConvError PongPacket :=
  subtypeTryFromOwned check_is_valid_subtype_pong PongPacket.mk base

/-- Generated `TryFrom<&'a Packet> for &'a PongPacket`. -/
def PongPacket.try_from_ref (base : Packet) :
    Except PongConvError PongPacket × Packet :=
  subtypeTryFromRef check_is_valid_subtype_pong PongPacket.mk base

/-- Generated `TryFrom<&'a mut Packet> for &'a mut PongPacket`. -/
def PongPacket.try_from_mut (base : Packet) :
    Except PongConvError PongPacket × Packet :=
  subtypeTryFromMutRef check_is_valid_subtype_pong PongPacket.mk base

/-- Generated `TryFrom<Packet> for StatusPacket`. -/
def StatusPacket.try_from (base : Packet) : Except Unit StatusPacket :=
  subtypeTryFromOwned check_is_valid_subtype_status transmuteToStatus base

/-- Generated `TryFrom<&'a Packet> for &'a StatusPacket`. -/
def StatusPacket.try_from_ref (base : Packet) :
    Except Unit StatusPacket × Packet :=
  subtypeTryFromRef check_is_valid_subtype_status transmuteToStatus base

/-- Generated `TryFrom<&'a mut Packet> for &'a mut StatusPacket`. -/
def StatusPacket.try_from_mut (base : Packet) :
    Except Unit StatusPacket × Packet :=
  subtypeTryFromMutRef check_is_valid_subtype_status transmuteToStatus base

/-- src/lib.rs (test) `StatusPacket::get_status_2`: returns `self.status_2`. -/
def StatusPacket.get_status_2 (s : StatusPacket) : Byte := s.status_2

/-- src/lib.rs (test) `StatusPacket::set_status_2`: `self.status_2 = v`. -/
def StatusPacket.set_status_2 (s : StatusPacket) (v : Byte) : StatusPacket :=
  { s with status_2 := v }

end lib

namespace casttest

/-- src/casttest.rs `pub enum ConversionError {}`: empty enum, uninhabited. -/
inductive ConversionError : Type

instance : IsEmpty ConversionError := ⟨fun e => nomatch e⟩

/-- src/casttest.rs `pub struct PongConvError {}`. -/
structure PongConvError where
deriving DecidableEq

/-- src/casttest.rs `PingPacket` (`repr(C, packed)`), layout-compatible with
`Packet`; the model carries the underlying 8-byte record. -/
structure PingPacket where
  raw : Packet
deriving DecidableEq

/-- src/casttest.rs `PongPacket`, same layout. -/
structure PongPacket where
  raw : Packet
deriving DecidableEq

/-- src/casttest.rs `StatusPacket` (`repr(C)`): `packet_type`, `ts: [u8; 4]`,
`status_0`, `status_1`, `status_2` — same 8-byte layout as `Packet`. -/
structure StatusPacket where
  packet_type : Byte
  ts : List Byte
  status_0 : Byte
  status_1 : Byte
  status_2 : Byte
deriving DecidableEq

/-- Check body of `subtype_of!(Packet => PingPacket | ConversionError { Ok(()) })`
in src/casttest.rs. -/
def check_is_valid_subtype_ping (_p : Packet) : Except ConversionError Unit :=
  .ok ()

/-- Check body of
`subtype_of!(Packet => PongPacket | PongConvError { Err(PongConvError {}) })`
in src/casttest.rs. -/
def check_is_valid_subtype_pong (_p : Packet) : Except PongConvError Unit :=
  .error ⟨⟩

/-- `transmute::<Packet, StatusPacket>` under the casttest layout. -/
def transmuteToStatus (p : Packet) : StatusPacket :=
  ⟨p.packet_type, p.data.take 4, p.data.getD 4 0, p.data.getD 5 0,
   p.data.getD 6 0⟩

/-- Generated `TryFrom<&'a Packet> for &'a PingPacket` (src/casttest.rs). -/
def PingPacket.try_from_ref (base : Packet) :
    Except ConversionError PingPacket × Packet :=
  subtypeTryFromRef check_is_valid_subtype_ping PingPacket.mk base

/-- Generated `TryFrom<Packet> for PongPacket` (src/casttest.rs). -/
def PongPacket.try_from (base : Packet) : Except PongConvError PongPacket :=
  subtypeTryFromOwned check_is_valid_subtype_pong PongPacket.mk base

/-- Hand-written `TryFrom<Packet> for StatusPacket` in src/casttest.rs: no
validity check at all (the `FIXME: check if packet_type matches` comment marks
the omission); it unconditionally transmutes. -/
def StatusPacket.try_from (packet : Packet) :
    Except ConversionError StatusPacket :=
  .ok (transmuteToStatus packet)

/-- Hand-written `TryFrom<&'a Packet> for &'a StatusPacket` in src/casttest.rs:
no check, unconditional transmute; the referent is unchanged. -/
def StatusPacket.try_from_ref (packet : Packet) :
    Except ConversionError StatusPacket × Packet :=
  (.ok (transmuteToStatus packet), packet)

/-- Hand-written `TryFrom<&'a mut Packet> for &'a mut StatusPacket` in
src/casttest.rs: no check, unconditional transmute; the referent is unchanged. -/
def StatusPacket.try_from_mut (packet : Packet) :
    Except ConversionError StatusPacket × Packet :=
  (.ok (transmuteToStatus packet), packet)

end casttest

namespace viewtest

/-- src/viewtest.rs `pub struct StatusPacket(Packet)`: a tuple struct owning
the base record. -/
structure StatusPacket where
  raw : Packet
deriving DecidableEq

/-- src/viewtest.rs `pub struct StatusRef<'a>(&'a Packet)`: a shared status
view; the model carries the value of the referent. -/
structure StatusRef where
  raw : Packet
deriving DecidableEq

/-- src/viewtest.rs `pub struct StatusMutRef<'a>(&'a mut Packet)`: an exclusive
status view; the model carries the value of the referent. -/
structure StatusMutRef where
  raw : Packet
deriving DecidableEq

/-- src/viewtest.rs `Packet::get_status_ref`:
`assert!(self.packet_type == 2)` then `StatusRef(self)`.  The assert's panic
on a non-status discriminant is modelled as `none`. -/
def get_status_ref (p : Packet) : Option StatusRef :=
  if p.packet_type = 2 then some ⟨p⟩ else none

/-- src/viewtest.rs `Packet::get_status_mut_ref`:
`assert!(self.packet_type == 2)` then `StatusMutRef(self)`; panic is `none`. -/
def get_status_mut_ref (p : Packet) : Option StatusMutRef :=
  if p.packet_type = 2 then some ⟨p⟩ else none

/-- src/viewtest.rs `Packet::get_status`: consumes the packet and wraps it
with no check at all. -/
def get_status (p : Packet) : StatusPacket := ⟨p⟩

/-- src/viewtest.rs `StatusRef::get_status_2`: returns `self.0.data[6]`. -/
def StatusRef.get_status_2 (r : StatusRef) : Byte := r.raw.data.getD 6 0

/-- src/viewtest.rs `StatusMutRef::set_status_2`: `self.0.data[6] = v`,
writing through the exclusive view to the underlying record. -/
def StatusMutRef.set_status_2 (r : StatusMutRef) (v : Byte) : StatusMutRef :=
  ⟨{ r.raw with data := r.raw.data.set 6 v }⟩

/-- src/viewtest.rs `Deref for StatusRef`: returns the wrapped `&Packet`. -/
def StatusRef.deref (r : StatusRef) : Packet := r.raw

/-- src/viewtest.rs `Deref for StatusMutRef` (target `StatusRef`): the same
referent viewed as a shared status view. -/
def StatusMutRef.deref (r : StatusMutRef) : StatusRef := ⟨r.raw⟩

end viewtest

end Pcast

namespace Pcast

/-- A seven-byte payload is literally a seven-element list. -/
lemma exists_seven (l : List Byte) (h : l.length = 7) :
    ∃ a b c d e f g, l = [a, b, c, d, e, f, g] := by
  rcases l with _ | ⟨a, _ | ⟨b, _ | ⟨c, _ | ⟨d, _ | ⟨e, _ | ⟨f, _ | ⟨g, _ | ⟨x, l⟩⟩⟩⟩⟩⟩⟩⟩ <;>
    simp_all

end Pcast

namespace Pcast

/-- C2: For every Base Record whose bytes satisfy subtype S's validity
predicate, downcasting by value to S and then upcasting the result back to the
base yields a record byte-identical to the original — shown for the two
relations of src/lib.rs whose predicates are satisfiable (StatusPacket and
PingPacket). -/
theorem downcast_upcast_roundtrip_identity (p : Packet) (h : p.wf)
    (hs : lib.check_is_valid_subtype_status p = .ok ())
    (hp : lib.check_is_valid_subtype_ping p = .ok ()) :
    Except.map lib.StatusPacket.deref (lib.StatusPacket.try_from p) = .ok p ∧
    Except.map lib.PingPacket.deref (lib.PingPacket.try_from p) = .ok p := by
  obtain ⟨t, data⟩ := p
  obtain ⟨a, b, c, d, e, f, g, rfl⟩ := exists_seven data h
  exact ⟨rfl, rfl⟩

/-- Witness for C2 at the spec's example record. -/
theorem downcast_upcast_roundtrip_identity_witness :
    (Packet.new 2 [0, 0, 0, 1, 0xAA, 0xBB, 0xCC]).wf ∧
    (Except.map lib.StatusPacket.deref
        (lib.StatusPacket.try_from (Packet.new 2 [0, 0, 0, 1, 0xAA, 0xBB, 0xCC])) =
      .ok (Packet.new 2 [0, 0, 0, 1, 0xAA, 0xBB, 0xCC]) ∧
    Except.map lib.PingPacket.deref
        (lib.PingPacket.try_from (Packet.new 2 [0, 0, 0, 1, 0xAA, 0xBB, 0xCC])) =
      .ok (Packet.new 2 [0, 0, 0, 1, 0xAA, 0xBB, 0xCC])) :=
  ⟨by decide,
   downcast_upcast_roundtrip_identity (Packet.new 2 [0, 0, 0, 1, 0xAA, 0xBB, 0xCC])
     (by decide) rfl rfl⟩

/-- C4: Producing a shared-reference downcast view does not alter any byte of
the underlying record, and whether the check succeeds or fails the referent is
unchanged afterwards, so the original shared reference remains independently
usable (its accessors return what they returned before). -/
theorem shared_downcast_preserves_record {ε σ : Type}
    (check : Packet → Except ε Unit) (transmute : Packet → σ) (p : Packet) :
    (subtypeTryFromRef check transmute p).2 = p ∧
    (subtypeTryFromRef check transmute p).2.bytes = p.bytes ∧
    (subtypeTryFromRef check transmute p).2.get_raw_payload =
      p.get_raw_payload := ⟨rfl, rfl, rfl⟩

/-- C6 (amended): Both relations declared in src/lib.rs behave uniformly in
the discriminant — every record succeeds the Ping downcast (its predicate is
unconditionally `Ok(())`) and every record fails the Pong downcast with the
Pong relation's declared error kind `PongConvError`. -/
theorem ping_accepts_pong_rejects_uniformly (p : Packet) :
    lib.PingPacket.try_from p = .ok ⟨p⟩ ∧
    lib.PongPacket.try_from p = .error ⟨⟩ := ⟨rfl, rfl⟩

/-- C6 counterexample: a record with discriminant 2 succeeds the first (Ping)
downcast, contradicting the claim that it fails it. -/
theorem disc_two_record_succeeds_ping_downcast :
    lib.PingPacket.try_from (Packet.new 2 [0, 0, 0, 0, 0, 0, 0]) =
      .ok ⟨Packet.new 2 [0, 0, 0, 0, 0, 0, 0]⟩ := rfl

/-- C8: For every relation declared with an uninhabited error-kind type, all
three generated downcast operations succeed for every record: the check can
only return `Ok`, so the relation can never fail. -/
theorem uninhabited_error_downcasts_always_succeed {ε σ : Type} [IsEmpty ε]
    (check : Packet → Except ε Unit) (transmute : Packet → σ) (p : Packet) :
    subtypeTryFromOwned check transmute p = .ok (transmute p) ∧
    (subtypeTryFromRef check transmute p).1 = .ok (transmute p) ∧
    (subtypeTryFromMutRef check transmute p).1 = .ok (transmute p) := by
  have h : check p = .ok () := by
    rcases hc : check p with e | u
    · exact (IsEmpty.false e).elim
    · rcases u
      rfl
  unfold subtypeTryFromOwned subtypeTryFromRef subtypeTryFromMutRef
  rw [h]
  exact ⟨rfl, rfl, rfl⟩

/-- Witness for C8: the Ping relation of src/lib.rs has the uninhabited error
kind `ConversionError`; its three downcasts succeed on a concrete record. -/
theorem uninhabited_error_downcasts_always_succeed_witness :
    subtypeTryFromOwned lib.check_is_valid_subtype_ping lib.PingPacket.mk
        (Packet.new 2 [0, 0, 0, 0, 0, 0, 0]) =
      .ok ⟨Packet.new 2 [0, 0, 0, 0, 0, 0, 0]⟩ ∧
    (subtypeTryFromRef lib.check_is_valid_subtype_ping lib.PingPacket.mk
        (Packet.new 2 [0, 0, 0, 0, 0, 0, 0])).1 =
      .ok ⟨Packet.new 2 [0, 0, 0, 0, 0, 0, 0]⟩ ∧
    (subtypeTryFromMutRef lib.check_is_valid_subtype_ping lib.PingPacket.mk
        (Packet.new 2 [0, 0, 0, 0, 0, 0, 0])).1 =
      .ok ⟨Packet.new 2 [0, 0, 0, 0, 0, 0, 0]⟩ :=
  uninhabited_error_downcasts_always_succeed lib.check_is_valid_subtype_ping
    lib.PingPacket.mk (Packet.new 2 [0, 0, 0, 0, 0, 0, 0])

/-- C9: The hand-written conversions from Packet to StatusPacket in
src/casttest.rs (by value, by shared reference, by exclusive reference) and
the consuming `get_status` in src/viewtest.rs perform no validity check, so
they succeed for every Packet regardless of its discriminant byte. -/
theorem unchecked_status_conversions_always_succeed (p : Packet) :
    casttest.StatusPacket.try_from p = .ok (casttest.transmuteToStatus p) ∧
    (casttest.StatusPacket.try_from_ref p).1 =
      .ok (casttest.transmuteToStatus p) ∧
    (casttest.StatusPacket.try_from_mut p).1 =
      .ok (casttest.transmuteToStatus p) ∧
    viewtest.get_status p = ⟨p⟩ := ⟨rfl, rfl, rfl, rfl⟩

end Pcast

namespace Pcast

/-- C1 (amended): For every owned Base Record that fails a relation's validity
predicate, the consuming downcast fails and the caller receives exactly the
relation's failure reason; the Base Record itself is consumed by the call and
is not returned alongside the error. -/
theorem consuming_downcast_failure_returns_only_error {ε σ : Type}
    (check : Packet → Except ε Unit) (transmute : Packet → σ) (p : Packet)
    (e : ε) (h : check p = .error e) :
    subtypeTryFromOwned check transmute p = .error e := by
  unfold subtypeTryFromOwned
  rw [h]

/-- Witness for C1 (amended) at the always-rejecting Pong relation. -/
theorem consuming_downcast_failure_returns_only_error_witness :
    lib.check_is_valid_subtype_pong (Packet.new 1 [1, 2, 3, 4, 5, 6, 7]) =
      .error ⟨⟩ ∧
    subtypeTryFromOwned lib.check_is_valid_subtype_pong lib.PongPacket.mk
        (Packet.new 1 [1, 2, 3, 4, 5, 6, 7]) = .error ⟨⟩ :=
  ⟨rfl,
   consuming_downcast_failure_returns_only_error lib.check_is_valid_subtype_pong
     lib.PongPacket.mk (Packet.new 1 [1, 2, 3, 4, 5, 6, 7]) ⟨⟩ rfl⟩

/-- C1 counterexample: the failed consuming downcast does not give the record
back — two distinct Base Records produce identical failure results, so the
result cannot carry the original record. -/
theorem pong_failure_results_identical_for_distinct_records :
    lib.PongPacket.try_from (Packet.new 1 [1, 2, 3, 4, 5, 6, 7]) =
      lib.PongPacket.try_from (Packet.new 2 [7, 6, 5, 4, 3, 2, 1]) ∧
    Packet.new 1 [1, 2, 3, 4, 5, 6, 7] ≠ Packet.new 2 [7, 6, 5, 4, 3, 2, 1] :=
  ⟨rfl, by decide⟩

/-- C3 (amended): On the 8-byte record with discriminant 0x02 and payload
[0x00,0x00,0x00,0x01,0xAA,0xBB,0xCC], the shared status view succeeds and its
third-status-byte accessor returns 0xCC; the shared Ping downcast of the same
record also succeeds (the declared Ping predicate unconditionally accepts;
there is no discriminant == 0x00 check in the code) and leaves the referent
unchanged and usable. -/
theorem status_record_views_example :
    viewtest.get_status_ref (Packet.new 2 [0, 0, 0, 1, 0xAA, 0xBB, 0xCC]) =
      some ⟨Packet.new 2 [0, 0, 0, 1, 0xAA, 0xBB, 0xCC]⟩ ∧
    Option.map viewtest.StatusRef.get_status_2
        (viewtest.get_status_ref (Packet.new 2 [0, 0, 0, 1, 0xAA, 0xBB, 0xCC])) =
      some 0xCC ∧
    (casttest.PingPacket.try_from_ref
        (Packet.new 2 [0, 0, 0, 1, 0xAA, 0xBB, 0xCC])).1 =
      .ok ⟨Packet.new 2 [0, 0, 0, 1, 0xAA, 0xBB, 0xCC]⟩ ∧
    (casttest.PingPacket.try_from_ref
        (Packet.new 2 [0, 0, 0, 1, 0xAA, 0xBB, 0xCC])).2 =
      Packet.new 2 [0, 0, 0, 1, 0xAA, 0xBB, 0xCC] := by
  refine ⟨by decide, by decide, rfl, rfl⟩

/-- C3 counterexample: the shared Ping downcast of the discriminant-0x02
example record succeeds, contradicting the claimed discriminant-mismatch
failure. -/
theorem ping_downcast_of_status_record_succeeds :
    (casttest.PingPacket.try_from_ref
        (Packet.new 2 [0, 0, 0, 1, 0xAA, 0xBB, 0xCC])).1 =
      .ok ⟨Packet.new 2 [0, 0, 0, 1, 0xAA, 0xBB, 0xCC]⟩ := rfl

/-- C5: Mutating the subtype-specific field through an exclusive subtype view
changes only the bytes owned by that field: for the src/lib.rs StatusPacket,
`set_status_2` leaves `packet_type`, `ts`, `status_0` and `status_1` unchanged
and writes `v` into `status_2`; for the src/viewtest.rs exclusive status view,
`set_status_2` leaves the discriminant and every payload byte other than
index 6 unchanged. -/
theorem set_status_2_mutation_isolation (s : lib.StatusPacket) (v : Byte)
    (p : Packet) (w : Byte) (i : Nat) (hi : i < 7) (hne : i ≠ 6) (hp : p.wf) :
    (s.set_status_2 v).packet_type = s.packet_type ∧
    (s.set_status_2 v).ts = s.ts ∧
    (s.set_status_2 v).status_0 = s.status_0 ∧
    (s.set_status_2 v).status_1 = s.status_1 ∧
    (s.set_status_2 v).status_2 = v ∧
    ((viewtest.StatusMutRef.mk p).set_status_2 w).raw.packet_type =
      p.packet_type ∧
    ((viewtest.StatusMutRef.mk p).set_status_2 w).raw.data.getD i 0 =
      p.data.getD i 0 := by
  obtain ⟨t, data⟩ := p
  obtain ⟨a, b, c, d, e, f, g, rfl⟩ := exists_seven data hp
  refine ⟨rfl, rfl, rfl, rfl, rfl, rfl, ?_⟩
  interval_cases i
  · rfl
  · rfl
  · rfl
  · rfl
  · rfl
  · rfl
  · exact absurd rfl hne

/-- Witness for C5 at concrete records, bytes and index 0. -/
theorem set_status_2_mutation_isolation_witness :
    (0 : Nat) < 7 ∧ (0 : Nat) ≠ 6 ∧ (Packet.new 2 [1, 2, 3, 4, 5, 6, 7]).wf ∧
    ((lib.StatusPacket.mk 2 [0, 0, 0, 0] 1 2 3).set_status_2 9).packet_type =
        (lib.StatusPacket.mk 2 [0, 0, 0, 0] 1 2 3).packet_type ∧
      ((lib.StatusPacket.mk 2 [0, 0, 0, 0] 1 2 3).set_status_2 9).ts =
        (lib.StatusPacket.mk 2 [0, 0, 0, 0] 1 2 3).ts ∧
      ((lib.StatusPacket.mk 2 [0, 0, 0, 0] 1 2 3).set_status_2 9).status_0 =
        (lib.StatusPacket.mk 2 [0, 0, 0, 0] 1 2 3).status_0 ∧
      ((lib.StatusPacket.mk 2 [0, 0, 0, 0] 1 2 3).set_status_2 9).status_1 =
        (lib.StatusPacket.mk 2 [0, 0, 0, 0] 1 2 3).status_1 ∧
      ((lib.StatusPacket.mk 2 [0, 0, 0, 0] 1 2 3).set_status_2 9).status_2 = 9 ∧
      ((viewtest.StatusMutRef.mk
            (Packet.new 2 [1, 2, 3, 4, 5, 6, 7])).set_status_2 8).raw.packet_type =
        (Packet.new 2 [1, 2, 3, 4, 5, 6, 7]).packet_type ∧
      ((viewtest.StatusMutRef.mk
            (Packet.new 2 [1, 2, 3, 4, 5, 6, 7])).set_status_2 8).raw.data.getD 0 0 =
        (Packet.new 2 [1, 2, 3, 4, 5, 6, 7]).data.getD 0 0 :=
  ⟨by decide, by decide, by decide,
   set_status_2_mutation_isolation (lib.StatusPacket.mk 2 [0, 0, 0, 0] 1 2 3) 9
     (Packet.new 2 [1, 2, 3, 4, 5, 6, 7]) 8 0 (by decide) (by decide) (by decide)⟩

/-- C7 (amended): The macro-generated downcasts never panic on a validity
failure — they return the relation's failure reason and the reference forms
leave the referent intact — but the hand-written view constructors
`get_status_ref` and `get_status_mut_ref` in src/viewtest.rs assert on the
discriminant and abort (modelled as `none`) instead of returning a failure
reason. -/
theorem macro_downcasts_fail_soft_view_constructors_assert {ε σ : Type}
    (check : Packet → Except ε Unit) (transmute : Packet → σ) (p q : Packet)
    (e : ε) (h : check p = .error e) (hq : q.packet_type ≠ 2) :
    subtypeTryFromOwned check transmute p = .error e ∧
    (subtypeTryFromRef check transmute p).1 = .error e ∧
    (subtypeTryFromRef check transmute p).2 = p ∧
    (subtypeTryFromMutRef check transmute p).1 = .error e ∧
    (subtypeTryFromMutRef check transmute p).2 = p ∧
    viewtest.get_status_ref q = none ∧
    viewtest.get_status_mut_ref q = none := by
  unfold subtypeTryFromOwned subtypeTryFromRef subtypeTryFromMutRef
    viewtest.get_status_ref viewtest.get_status_mut_ref
  rw [h]
  simp [hq]

/-- Witness for C7 (amended): the Pong relation's failing check on a concrete
record, and a discriminant-0 record for the asserting view constructors. -/
theorem macro_downcasts_fail_soft_view_constructors_assert_witness :
    lib.check_is_valid_subtype_pong (Packet.new 1 [0, 0, 0, 0, 0, 0, 0]) =
      .error ⟨⟩ ∧
    (Packet.new 0 [0, 0, 0, 0, 0, 0, 0]).packet_type ≠ 2 ∧
    (subtypeTryFromOwned lib.check_is_valid_subtype_pong lib.PongPacket.mk
          (Packet.new 1 [0, 0, 0, 0, 0, 0, 0]) = .error ⟨⟩ ∧
      (subtypeTryFromRef lib.check_is_valid_subtype_pong lib.PongPacket.mk
          (Packet.new 1 [0, 0, 0, 0, 0, 0, 0])).1 = .error ⟨⟩ ∧
      (subtypeTryFromRef lib.check_is_valid_subtype_pong lib.PongPacket.mk
          (Packet.new 1 [0, 0, 0, 0, 0, 0, 0])).2 =
        Packet.new 1 [0, 0, 0, 0, 0, 0, 0] ∧
      (subtypeTryFromMutRef lib.check_is_valid_subtype_pong lib.PongPacket.mk
          (Packet.new 1 [0, 0, 0, 0, 0, 0, 0])).1 = .error ⟨⟩ ∧
      (subtypeTryFromMutRef lib.check_is_valid_subtype_pong lib.PongPacket.mk
          (Packet.new 1 [0, 0, 0, 0, 0, 0, 0])).2 =
        Packet.new 1 [0, 0, 0, 0, 0, 0, 0] ∧
      viewtest.get_status_ref (Packet.new 0 [0, 0, 0, 0, 0, 0, 0]) = none ∧
      viewtest.get_status_mut_ref (Packet.new 0 [0, 0, 0, 0, 0, 0, 0]) = none) :=
  ⟨rfl, by decide,
   macro_downcasts_fail_soft_view_constructors_assert
     lib.check_is_valid_subtype_pong lib.PongPacket.mk
     (Packet.new 1 [0, 0, 0, 0, 0, 0, 0]) (Packet.new 0 [0, 0, 0, 0, 0, 0, 0])
     ⟨⟩ rfl (by decide)⟩

/-- C7 counterexample: the shared status view constructor of src/viewtest.rs
panics (assert failure, modelled as `none`) on a record whose discriminant is
not 0x02, instead of returning the failure reason. -/
theorem get_status_ref_panics_on_wrong_discriminant :
    viewtest.get_status_ref (Packet.new 0 [0, 0, 0, 0, 0, 0, 0]) = none := by
  decide

/-- C10: For every well-formed Packet and every byte v, writing v through the
exclusive status view's `set_status_2` and then reading through a status
view's `get_status_2` returns v; both accessors address exactly payload byte
index 6, which is the last byte (index 7) of the 8-byte record. -/
theorem set_get_status_2_roundtrip (p : Packet) (v : Byte) (h : p.wf) :
    (viewtest.StatusRef.mk
        ((viewtest.StatusMutRef.mk p).set_status_2 v).raw).get_status_2 = v ∧
    ((viewtest.StatusMutRef.mk p).set_status_2 v).deref.get_status_2 = v ∧
    (viewtest.StatusRef.mk p).get_status_2 = p.bytes.getD 7 0 ∧
    ((viewtest.StatusMutRef.mk p).set_status_2 v).raw.bytes =
      p.bytes.set 7 v ∧
    p.bytes.length = 8 := by
  obtain ⟨t, data⟩ := p
  obtain ⟨a, b, c, d, e, f, g, rfl⟩ := exists_seven data h
  exact ⟨rfl, rfl, rfl, rfl, rfl⟩

/-- Witness for C10 at a concrete record and byte. -/
theorem set_get_status_2_roundtrip_witness :
    (Packet.new 2 [1, 2, 3, 4, 5, 6, 7]).wf ∧
    ((viewtest.StatusRef.mk
          ((viewtest.StatusMutRef.mk
              (Packet.new 2 [1, 2, 3, 4, 5, 6, 7])).set_status_2 0x55).raw).get_status_2 =
        0x55 ∧
      ((viewtest.StatusMutRef.mk
          (Packet.new 2 [1, 2, 3, 4, 5, 6, 7])).set_status_2 0x55).deref.get_status_2 =
        0x55 ∧
      (viewtest.StatusRef.mk (Packet.new 2 [1, 2, 3, 4, 5, 6, 7])).get_status_2 =
        (Packet.new 2 [1, 2, 3, 4, 5, 6, 7]).bytes.getD 7 0 ∧
      ((viewtest.StatusMutRef.mk
          (Packet.new 2 [1, 2, 3, 4, 5, 6, 7])).set_status_2 0x55).raw.bytes =
        (Packet.new 2 [1, 2, 3, 4, 5, 6, 7]).bytes.set 7 0x55 ∧
      (Packet.new 2 [1, 2, 3, 4, 5, 6, 7]).bytes.length = 8) :=
  ⟨by decide,
   set_get_status_2_roundtrip (Packet.new 2 [1, 2, 3, 4, 5, 6, 7]) 0x55
     (by decide)⟩

end Pcast
